import Mathlib

/-!
Shallow embedding of `libs/infinity_emb/infinity_emb/engine.py`
(class `AsyncEmbeddingEngine`): the lifecycle state machine and the
dispatch contract of the engine facade.

The engine's collaborators (`EngineArgs`, `select_model`, `BatchHandler`)
live outside the embedded file; they are modelled from the spec as opaque
data (records of the configuration the engine hands them) or as parameters
(`select_model` is an arbitrary function argument).  Python exceptions
become an `Except` result; the mutation of `self` becomes explicit state
passing; the calls the engine makes on its collaborators are recorded as
events so that delegation claims can be stated about the calls themselves.
Latency values (Python floats) are modelled as rationals; the only
arithmetic the engine performs on them is division by two, which is exact
for binary floats and for rationals alike.
-/

namespace Infinity

/-- Modelled from the spec: the engine's immutable configuration value
(`EngineArgs` / EngineConfig, defined outside the embedded file).  Only the
fields the engine itself reads are included: model path/name, maximum batch
size, optional cache path, tokenization-length-estimation flag. -/
structure EngineArgs where
  model_name_or_path : String
  batch_size : Nat
  vector_disk_cache_path : Option String
  lengths_via_tokenize : Bool
deriving DecidableEq

/-- Modelled from the spec: the statically resolved ModelHandle.  The engine
only ever reads its capability set. -/
structure Model where
  capabilities : List String
deriving DecidableEq

/-- Modelled from the spec: the result of `select_model` (the Resolver):
`config → (ModelHandle, min_latency, max_latency)`. -/
structure Resolved where
  model : Model
  min_inference_t : Rat
  max_inference_t : Rat
deriving DecidableEq

/-- The `BatchHandler` (DispatchRuntime) as the engine configures it in
`astart`.  Its implementation is external, so it is embedded as the record
of the constructor arguments the engine passes at the single construction
site in the source. -/
structure BatchHandler where
  max_batch_size : Nat
  model : Model
  batch_delay : Rat
  vector_disk_cache_path : Option String
  verbose : Bool
  lengths_via_tokenize : Bool
deriving DecidableEq

/-- The failures observable at the engine facade.  Both `invalidState*`
constructors are `ValueError` in the source (the spec's InvalidState):
`invalidStateDoubleSpawn` is raised by `astart` when already running,
`invalidStateNotRunning` by `_check_running`.  `attributeNoBatchHandler`
is the `AttributeError` Python raises when `self._batch_handler` was never
assigned.  `externalFailure` stands for any exception escaping an external
collaborator call (`BatchHandler(...)` construction or `spawn`). -/
inductive EngineError
  | invalidStateDoubleSpawn
  | invalidStateNotRunning
  | attributeNoBatchHandler
  | externalFailure
deriving DecidableEq

/-- A call the engine dispatches to the `BatchHandler`, with the arguments
exactly as they appear at the call site in the source. -/
inductive RuntimeCall
  | embed (sentences : List String)
  | rerank (query : String) (docs : List String) (raw_scores : Bool)
  | classify (sentences : List String) (raw_scores : Bool)
  | overload_status
  | is_overloaded
deriving DecidableEq

/-- Observable side effects of the lifecycle operations. -/
inductive Event
  | deprecationWarning
  | constructBatchHandler (bh : BatchHandler)
  | spawn
  | shutdown
deriving DecidableEq

/-- The engine object: its attributes as assigned in `__init__` and
`astart`.  `_batch_handler` is `none` until `astart` assigns it (in Python
the attribute simply does not exist before that). -/
structure AsyncEmbeddingEngine where
  engine_args : EngineArgs
  running : Bool
  _model : Model
  _min_inference_t : Rat
  _max_inference_t : Rat
  _batch_handler : Option BatchHandler
deriving DecidableEq

/-- The spec's three-state view of the engine (`Created`, `Running`,
`Stopped`).  The source keeps only the boolean `running` flag plus the
presence of `_batch_handler`; this map is the spec's reading of those. -/
inductive EngineState
  | Created
  | Running
  | Stopped
deriving DecidableEq

/-- Behaviour of the environment during `astart`: whether the external
`BatchHandler(...)` construction raises, whether `spawn` raises, and the
ambient `logger.level` consulted for `verbose`. -/
structure ExternalBehavior where
  construct_fails : Bool
  spawn_fails : Bool
  logger_level : Nat
deriving DecidableEq

/-- Modelled from the spec: the DispatchRuntime's own `classify` operation
defaults `raw_scores` to `false` (softmax-normalized class scores) when the
caller omits the argument, as the facade surface does
(`rawScores: bool = false`). -/
def BatchHandler.classify_raw_scores_default : Bool := false

namespace AsyncEmbeddingEngine

/-- The spec's state of an engine value. -/
def state (e : AsyncEmbeddingEngine) : EngineState :=
  if e.running then .Running
  else if e._batch_handler.isSome then .Stopped
  else .Created

/-- `__init__`: optionally warns about deprecation, merges the positional
`model_name_or_path` into the keyword arguments, builds `EngineArgs`, sets
`running := False` and resolves the model via `select_model`.
`select_model` is the external Resolver, passed as a parameter. -/
def init (select_model : EngineArgs → Resolved)
    (model_name_or_path : Option String)
    (show_deprecation_warning : Bool)
    (kwargs : EngineArgs) : AsyncEmbeddingEngine × List Event :=
  let warns := if show_deprecation_warning then [Event.deprecationWarning] else []
  let args :=
    match model_name_or_path with
    | some n => { kwargs with model_name_or_path := n }
    | none => kwargs
  let r := select_model args
  ({ engine_args := args
     running := false
     _model := r.model
     _min_inference_t := r.min_inference_t
     _max_inference_t := r.max_inference_t
     _batch_handler := none }, warns)

/-- `from_args`: `cls(**asdict(engine_args), _show_deprecation_warning=False)`
— the dataclass round-trips through `asdict`, so the keyword arguments are
exactly the fields of `engine_args` and the positional name is absent. -/
def from_args (select_model : EngineArgs → Resolved)
    (engine_args : EngineArgs) : AsyncEmbeddingEngine × List Event :=
  init select_model none false engine_args

/-- `astart`: raises InvalidState if already running; otherwise sets
`running := True`, then constructs the `BatchHandler` from the engine's
configuration (max batch size, model, `_min_inference_t / 2` as the batch
delay, cache path, verbosity from the ambient logger level, tokenization
flag) and awaits `spawn`.  Construction and `spawn` are external and may
raise; whether they do is read off `ext`.  Returns the Python result, the
state of `self` afterwards, and the calls made on collaborators. -/
def astart (ext : ExternalBehavior) (e : AsyncEmbeddingEngine) :
    Except EngineError Unit × AsyncEmbeddingEngine × List Event :=
  if e.running then
    (.error .invalidStateDoubleSpawn, e, [])
  else
    let e1 := { e with running := true }
    if ext.construct_fails then
      (.error .externalFailure, e1, [])
    else
      let bh : BatchHandler :=
        { max_batch_size := e.engine_args.batch_size
          model := e._model
          batch_delay := e._min_inference_t / 2
          vector_disk_cache_path := e.engine_args.vector_disk_cache_path
          verbose := decide (ext.logger_level ≤ 10)
          lengths_via_tokenize := e.engine_args.lengths_via_tokenize }
      let e2 := { e1 with _batch_handler := some bh }
      if ext.spawn_fails then
        (.error .externalFailure, e2, [.constructBatchHandler bh])
      else
        (.ok (), e2, [.constructBatchHandler bh, .spawn])

/-- `astop`: `_check_running()` first (InvalidState if not running), then
sets `running := False` and awaits `self._batch_handler.shutdown()`; if the
attribute was never assigned, Python raises AttributeError there, after the
flag was already cleared. -/
def astop (e : AsyncEmbeddingEngine) :
    Except EngineError Unit × AsyncEmbeddingEngine × List Event :=
  if e.running then
    let e1 := { e with running := false }
    match e._batch_handler with
    | some _ => (.ok (), e1, [.shutdown])
    | none => (.error .attributeNoBatchHandler, e1, [])
  else
    (.error .invalidStateNotRunning, e, [])

/-- `embed`: `_check_running()` then
`await self._batch_handler.embed(sentences)` — the result is whatever the
runtime returns for that call, so the operation is embedded as the call it
dispatches. -/
def embed (e : AsyncEmbeddingEngine) (sentences : List String) :
    Except EngineError RuntimeCall :=
  if e.running then
    match e._batch_handler with
    | some _ => .ok (.embed sentences)
    | none => .error .attributeNoBatchHandler
  else .error .invalidStateNotRunning

/-- `rerank`: `_check_running()` then
`await self._batch_handler.rerank(query=query, docs=docs, raw_scores=raw_scores)`. -/
def rerank (e : AsyncEmbeddingEngine) (query : String) (docs : List String)
    (raw_scores : Bool := false) : Except EngineError RuntimeCall :=
  if e.running then
    match e._batch_handler with
    | some _ => .ok (.rerank query docs raw_scores)
    | none => .error .attributeNoBatchHandler
  else .error .invalidStateNotRunning

/-- `classify`: `_check_running()` then
`await self._batch_handler.classify(sentences=sentences)` — note the call
site passes only `sentences`; the engine's own `raw_scores` parameter is
not forwarded, so the runtime sees its default. -/
def classify (e : AsyncEmbeddingEngine) (sentences : List String)
    (raw_scores : Bool := false) : Except EngineError RuntimeCall :=
  if e.running then
    match e._batch_handler with
    | some _ => .ok (.classify sentences BatchHandler.classify_raw_scores_default)
    | none => .error .attributeNoBatchHandler
  else .error .invalidStateNotRunning

/-- `overload_status`: `_check_running()` then read-through to
`self._batch_handler.overload_status()`. -/
def overload_status (e : AsyncEmbeddingEngine) : Except EngineError RuntimeCall :=
  if e.running then
    match e._batch_handler with
    | some _ => .ok .overload_status
    | none => .error .attributeNoBatchHandler
  else .error .invalidStateNotRunning

/-- `is_overloaded`: `_check_running()` then read-through to
`self._batch_handler.is_overloaded()`. -/
def is_overloaded (e : AsyncEmbeddingEngine) : Except EngineError RuntimeCall :=
  if e.running then
    match e._batch_handler with
    | some _ => .ok .is_overloaded
    | none => .error .attributeNoBatchHandler
  else .error .invalidStateNotRunning

/-- `capabilities` property: reads `self._model.capabilities` with no
running check — a total function of the engine value. -/
def capabilities (e : AsyncEmbeddingEngine) : List String :=
  e._model.capabilities

end AsyncEmbeddingEngine

/-- The lifecycle methods a scoped use invokes, for counting. -/
inductive MethodCall
  | astartCall
  | astopCall
deriving DecidableEq, BEq

/-- The outcome of a scoped (`async with`) use of the engine. -/
inductive ScopeResult (ε α : Type)
  | ok (a : α)
  | enterFailed (err : EngineError)
  | bodyFailed (err : ε)
deriving DecidableEq

/-- `async with engine: body`, per the Python lowering of the statement:
`__aenter__` (which awaits `astart`) runs first; if it raises, the body is
never entered and `__aexit__` is not called.  If it succeeds, the body
runs, and `__aexit__` (which awaits `astop`) is invoked exactly once on
either exit path — normal completion or a raised failure — after which a
body failure propagates (since `__aexit__` returns `None`, a falsy value).
The body is an arbitrary computation over the started engine that may fail
with an arbitrary error type `ε` (for example a failed request call).
Returns the outcome, the final engine state, and the lifecycle methods
invoked in order. -/
def asyncWith {ε α : Type} (ext : ExternalBehavior)
    (e : AsyncEmbeddingEngine) (body : AsyncEmbeddingEngine → Except ε α) :
    ScopeResult ε α × AsyncEmbeddingEngine × List MethodCall :=
  match AsyncEmbeddingEngine.astart ext e with
  | (.error err, e1, _) => (.enterFailed err, e1, [.astartCall])
  | (.ok _, e1, _) =>
    match body e1 with
    | .ok a =>
      let (_, e2, _) := AsyncEmbeddingEngine.astop e1
      (.ok a, e2, [.astartCall, .astopCall])
    | .error berr =>
      let (_, e2, _) := AsyncEmbeddingEngine.astop e1
      (.bodyFailed berr, e2, [.astartCall, .astopCall])

/-! Concrete values used to exercise the definitions. -/

/-- A concrete Resolver for witnesses. -/
def sel0 : EngineArgs → Resolved :=
  fun _ => { model := { capabilities := ["embed", "classify"] }
             min_inference_t := 1
             max_inference_t := 4 }

/-- A concrete configuration for witnesses. -/
def args0 : EngineArgs :=
  { model_name_or_path := "michaelfeil/bge-small-en-v1.5"
    batch_size := 32
    vector_disk_cache_path := none
    lengths_via_tokenize := false }

/-- Benign external behaviour: nothing raises, default logger level. -/
def ext0 : ExternalBehavior :=
  { construct_fails := false, spawn_fails := false, logger_level := 20 }

/-- A freshly constructed engine (state `Created`). -/
def c0 : AsyncEmbeddingEngine :=
  (AsyncEmbeddingEngine.from_args sel0 args0).1

/-- The engine after a successful `astart` (state `Running`). -/
def r0 : AsyncEmbeddingEngine :=
  (c0.astart ext0).2.1

/-- The engine after a successful `astart` then `astop` (state `Stopped`). -/
def s0 : AsyncEmbeddingEngine :=
  (r0.astop).2.1

example : c0.state = .Created := by decide
example : r0.state = .Running := by decide
example : s0.state = .Stopped := by decide

open AsyncEmbeddingEngine

/-- C1: the source's `classify` does not forward its `raw_scores` argument
to the runtime: at a running engine, `classify(sentences, raw_scores=True)`
dispatches exactly the same runtime call as `raw_scores=False` — the
runtime receives its default (softmax) — while `rerank` does forward its
flag.  This evaluates the code at the failing input. -/
theorem C1_classify_drops_raw_scores :
    r0.classify ["What is Deep Learning?"] true
      = .ok (.classify ["What is Deep Learning?"] false)
    ∧ r0.classify ["What is Deep Learning?"] true
      = r0.classify ["What is Deep Learning?"] false
    ∧ r0.rerank "q" ["d1", "d2"] true = .ok (.rerank "q" ["d1", "d2"] true) :=
  ⟨rfl, rfl, rfl⟩

/-- C2: counterexample — on the concrete engine, after a successful
`astop`, a further `astart` on the same instance succeeds and the state is
Running again, refuting "no subsequent start() on the same instance
succeeds". -/
theorem C2_counterexample_stopped_not_terminal :
    (r0.astop).1 = .ok ()
    ∧ s0.state = .Stopped
    ∧ (s0.astart ext0).1 = .ok ()
    ∧ (s0.astart ext0).2.1.state = .Running :=
  ⟨rfl, rfl, rfl, rfl⟩

/-- C2 (amended): Stopped is not terminal.  The engine keeps only a boolean
running flag, so after a successful `stop()` a subsequent `start()` (with
non-failing collaborators) succeeds on the same instance and returns it to
Running. -/
theorem C2_amended_restart_after_stop (e : AsyncEmbeddingEngine)
    (ext : ExternalBehavior)
    (hrun : e.running = true) (hbh : e._batch_handler.isSome = true)
    (hc : ext.construct_fails = false) (hs : ext.spawn_fails = false) :
    (e.astop).1 = .ok ()
    ∧ (e.astop).2.1.state = .Stopped
    ∧ ((e.astop).2.1.astart ext).1 = .ok ()
    ∧ ((e.astop).2.1.astart ext).2.1.state = .Running := by
  obtain ⟨bh, hbh'⟩ := Option.isSome_iff_exists.mp hbh
  simp [astop, astart, state, hrun, hbh', hc, hs]

/-- C2 (amended) at the concrete engine `r0`. -/
theorem C2_amended_restart_after_stop_witness :
    (r0.astop).1 = .ok ()
    ∧ (r0.astop).2.1.state = .Stopped
    ∧ ((r0.astop).2.1.astart ext0).1 = .ok ()
    ∧ ((r0.astop).2.1.astart ext0).2.1.state = .Running :=
  C2_amended_restart_after_stop r0 ext0 (by decide) (by decide) (by decide)
    (by decide)

/-- C3: when the engine is not running, every request method (`embed`,
`rerank`, `classify`) and both load queries (`overload_status`,
`is_overloaded`) fail with InvalidState and dispatch no runtime call; and
— given the runtime handle exists whenever the flag is set — each of these
operations succeeds exactly when the engine is running. -/
theorem C3_requests_iff_running (e : AsyncEmbeddingEngine)
    (s : List String) (q : String) (d : List String) (r : Bool)
    (hwf : e.running = true → e._batch_handler.isSome = true) :
    (e.running = false →
      e.embed s = .error .invalidStateNotRunning
      ∧ e.rerank q d r = .error .invalidStateNotRunning
      ∧ e.classify s r = .error .invalidStateNotRunning
      ∧ e.overload_status = .error .invalidStateNotRunning
      ∧ e.is_overloaded = .error .invalidStateNotRunning)
    ∧ (e.embed s).isOk = e.running
    ∧ (e.rerank q d r).isOk = e.running
    ∧ (e.classify s r).isOk = e.running
    ∧ (e.overload_status).isOk = e.running
    ∧ (e.is_overloaded).isOk = e.running := by
  cases hr : e.running with
  | false =>
    simp [embed, rerank, classify, overload_status, is_overloaded, hr,
      Except.isOk, Except.toBool]
  | true =>
    obtain ⟨bh, hbh⟩ := Option.isSome_iff_exists.mp (hwf hr)
    simp [embed, rerank, classify, overload_status, is_overloaded, hr, hbh,
      Except.isOk, Except.toBool]

/-- C3 at the concrete engines `c0` (Created) and `r0` (Running). -/
theorem C3_requests_iff_running_witness :
    ((c0.running = false →
      c0.embed ["a"] = .error .invalidStateNotRunning
      ∧ c0.rerank "q" ["d"] true = .error .invalidStateNotRunning
      ∧ c0.classify ["a"] true = .error .invalidStateNotRunning
      ∧ c0.overload_status = .error .invalidStateNotRunning
      ∧ c0.is_overloaded = .error .invalidStateNotRunning)
    ∧ (c0.embed ["a"]).isOk = c0.running
    ∧ (c0.rerank "q" ["d"] true).isOk = c0.running
    ∧ (c0.classify ["a"] true).isOk = c0.running
    ∧ (c0.overload_status).isOk = c0.running
    ∧ (c0.is_overloaded).isOk = c0.running)
    ∧ ((r0.running = false →
      r0.embed ["a"] = .error .invalidStateNotRunning
      ∧ r0.rerank "q" ["d"] true = .error .invalidStateNotRunning
      ∧ r0.classify ["a"] true = .error .invalidStateNotRunning
      ∧ r0.overload_status = .error .invalidStateNotRunning
      ∧ r0.is_overloaded = .error .invalidStateNotRunning)
    ∧ (r0.embed ["a"]).isOk = r0.running
    ∧ (r0.rerank "q" ["d"] true).isOk = r0.running
    ∧ (r0.classify ["a"] true).isOk = r0.running
    ∧ (r0.overload_status).isOk = r0.running
    ∧ (r0.is_overloaded).isOk = r0.running) :=
  ⟨C3_requests_iff_running c0 ["a"] "q" ["d"] true (by decide),
   C3_requests_iff_running r0 ["a"] "q" ["d"] true (by decide)⟩

/-- C4: a second `start()` on a running engine fails with InvalidState,
performs no construction or spawn, and leaves the instance unchanged —
in particular the state is still Running after the failed call. -/
theorem C4_double_start_fails (e : AsyncEmbeddingEngine)
    (ext : ExternalBehavior) (hrun : e.running = true) :
    e.astart ext = (.error .invalidStateDoubleSpawn, e, [])
    ∧ (e.astart ext).2.1.state = .Running := by
  have h1 : e.astart ext = (.error .invalidStateDoubleSpawn, e, []) := by
    simp [astart, hrun]
  exact ⟨h1, by rw [h1]; simp [state, hrun]⟩

/-- C4 at the concrete running engine `r0`. -/
theorem C4_double_start_fails_witness :
    r0.astart ext0 = (.error .invalidStateDoubleSpawn, r0, [])
    ∧ (r0.astart ext0).2.1.state = .Running :=
  C4_double_start_fails r0 ext0 (by decide)

/-- C5: `stop()` on an engine that is not running (Created or Stopped)
fails with InvalidState, leaves the instance unchanged and invokes no
shutdown (the collaborator-call trace is empty). -/
theorem C5_stop_not_running_fails (e : AsyncEmbeddingEngine)
    (hrun : e.running = false) :
    e.astop = (.error .invalidStateNotRunning, e, []) := by
  simp [astop, hrun]

/-- C5 at the concrete engines `c0` (Created) and `s0` (Stopped). -/
theorem C5_stop_not_running_fails_witness :
    c0.astop = (.error .invalidStateNotRunning, c0, [])
    ∧ s0.astop = (.error .invalidStateNotRunning, s0, []) :=
  ⟨C5_stop_not_running_fails c0 (by decide),
   C5_stop_not_running_fails s0 (by decide)⟩

/-- C6: on a non-running engine (in particular one in state Created), a
successful `start()` constructs exactly one BatchHandler — configured with
the engine's maximum batch size, cache path, tokenization-length flag and
a batching delay of `_min_inference_t / 2` — and then spawns it; the
collaborator-call trace is exactly one construction followed by `spawn`. -/
theorem C6_start_constructs_runtime (e : AsyncEmbeddingEngine)
    (ext : ExternalBehavior) (hrun : e.running = false)
    (hc : ext.construct_fails = false) (hs : ext.spawn_fails = false) :
    (e.astart ext).1 = .ok ()
    ∧ (e.astart ext).2.1.running = true
    ∧ (e.astart ext).2.1._batch_handler = some
        { max_batch_size := e.engine_args.batch_size
          model := e._model
          batch_delay := e._min_inference_t / 2
          vector_disk_cache_path := e.engine_args.vector_disk_cache_path
          verbose := decide (ext.logger_level ≤ 10)
          lengths_via_tokenize := e.engine_args.lengths_via_tokenize }
    ∧ (e.astart ext).2.2 = [.constructBatchHandler
        { max_batch_size := e.engine_args.batch_size
          model := e._model
          batch_delay := e._min_inference_t / 2
          vector_disk_cache_path := e.engine_args.vector_disk_cache_path
          verbose := decide (ext.logger_level ≤ 10)
          lengths_via_tokenize := e.engine_args.lengths_via_tokenize },
        .spawn]
    ∧ (e.astart ext).2.2.countP (fun ev => match ev with
        | .constructBatchHandler _ => true
        | _ => false) = 1 := by
  simp [astart, hrun, hc, hs, List.countP, List.countP.go]

/-- C6 at the concrete Created engine `c0`: the runtime is built with
`c0`'s batch size, cache path and tokenization flag, and a delay of half
the resolved minimum inference time (here `1 / 2`). -/
theorem C6_start_constructs_runtime_witness :
    (c0.astart ext0).1 = .ok ()
    ∧ (c0.astart ext0).2.1._batch_handler = some
        { max_batch_size := c0.engine_args.batch_size
          model := c0._model
          batch_delay := c0._min_inference_t / 2
          vector_disk_cache_path := c0.engine_args.vector_disk_cache_path
          verbose := decide (ext0.logger_level ≤ 10)
          lengths_via_tokenize := c0.engine_args.lengths_via_tokenize }
    ∧ (c0.astart ext0).2.2.countP (fun ev => match ev with
        | .constructBatchHandler _ => true
        | _ => false) = 1 :=
  ⟨(C6_start_constructs_runtime c0 ext0 (by decide) (by decide) (by decide)).1,
   (C6_start_constructs_runtime c0 ext0 (by decide) (by decide) (by decide)).2.2.1,
   (C6_start_constructs_runtime c0 ext0 (by decide) (by decide)
     (by decide)).2.2.2.2⟩

/-- C7: the `capabilities` property performs no running check — it is a
total read of the statically resolved model — so it succeeds in every
state: a freshly constructed engine reports exactly the Resolver's
capability set, and neither `astart` nor `astop` (whatever their outcome
or the external behaviour) changes what it returns. -/
theorem C7_capabilities_any_state (sm : EngineArgs → Resolved) (w : Bool)
    (args : EngineArgs) (ext : ExternalBehavior)
    (e : AsyncEmbeddingEngine) :
    ((init sm none w args).1).capabilities = (sm args).model.capabilities
    ∧ ((e.astart ext).2.1).capabilities = e.capabilities
    ∧ ((e.astop).2.1).capabilities = e.capabilities := by
  refine ⟨rfl, ?_, ?_⟩
  · cases hr : e.running <;> cases hc : ext.construct_fails <;>
      cases hs : ext.spawn_fails <;>
      simp [astart, capabilities, hr, hc, hs]
  · cases hr : e.running <;> cases hb : e._batch_handler <;>
      simp [astop, capabilities, hr, hb]

/-- C8: scoped lifecycle (`async with`): entering the scope calls
`start()`, and whenever `start()` succeeded, `stop()` is invoked exactly
once on every exit path of the body — whether the body returns normally or
throws — and the final engine is exactly the result of `astop` on the
started engine. -/
theorem C8_scoped_stop_exactly_once {ε α : Type} (ext : ExternalBehavior)
    (e : AsyncEmbeddingEngine) (body : AsyncEmbeddingEngine → Except ε α)
    (hok : ((e.astart ext).1).isOk = true) :
    (asyncWith ext e body).2.2.count .astartCall = 1
    ∧ (asyncWith ext e body).2.2.count .astopCall = 1
    ∧ (asyncWith ext e body).2.1 = (((e.astart ext).2.1).astop).2.1 := by
  rcases h : AsyncEmbeddingEngine.astart ext e with ⟨r, e1, tr⟩
  rcases r with err | u
  · rw [h] at hok
    simp [Except.isOk, Except.toBool] at hok
  · rcases hbb : body e1 with berr | a <;>
      simp [asyncWith, h, hbb, List.count_cons, List.count_nil] <;> decide

/-- C8 at the concrete engine `c0` with a body that throws: the scope still
stops the engine exactly once. -/
theorem C8_scoped_stop_exactly_once_witness :
    (asyncWith ext0 c0 (fun _ => (.error "boom" : Except String Unit))).2.2.count
      .astartCall = 1
    ∧ (asyncWith ext0 c0
        (fun _ => (.error "boom" : Except String Unit))).2.2.count .astopCall = 1
    ∧ (asyncWith ext0 c0 (fun _ => (.error "boom" : Except String Unit))).2.1
      = (((c0.astart ext0).2.1).astop).2.1 :=
  C8_scoped_stop_exactly_once ext0 c0 _ (by decide)

/-- C9: `from_args` returns an engine in state Created — runtime not
started, no handler — storing the given configuration unchanged; it builds
exactly the same engine value as the legacy keyword constructor on the
same field values (with or without the positional model name), the two
differing only in that the legacy path emits the deprecation notice. -/
theorem C9_from_args_matches_legacy (sm : EngineArgs → Resolved)
    (args : EngineArgs) :
    (from_args sm args).1.state = .Created
    ∧ (from_args sm args).1.running = false
    ∧ (from_args sm args).1._batch_handler = none
    ∧ (from_args sm args).1.engine_args = args
    ∧ (from_args sm args).1 = (init sm none true args).1
    ∧ (from_args sm args).1 = (init sm (some args.model_name_or_path) true args).1
    ∧ (from_args sm args).2 = []
    ∧ (init sm none true args).2 = [.deprecationWarning] :=
  ⟨rfl, rfl, rfl, rfl, rfl, rfl, rfl, rfl⟩

/-- External behaviour where the BatchHandler construction raises. -/
def extConstructFail : ExternalBehavior :=
  { construct_fails := true, spawn_fails := false, logger_level := 20 }

/-- External behaviour where `spawn` raises. -/
def extSpawnFail : ExternalBehavior :=
  { construct_fails := false, spawn_fails := true, logger_level := 20 }

/-- C10: counterexample — when the external BatchHandler construction
itself raises during the first `astart` of a fresh engine, the engine is
left Running, but the subsequent `astop` does not invoke shutdown: it
passes the running check and then fails with AttributeError (no
`_batch_handler` was ever assigned), refuting "a subsequent stop() ...
invokes shutdown". -/
theorem C10_counterexample_construct_failure :
    (c0.astart extConstructFail).1 = .error .externalFailure
    ∧ (c0.astart extConstructFail).2.1.running = true
    ∧ ((c0.astart extConstructFail).2.1.astop).1
      = .error .attributeNoBatchHandler
    ∧ ((c0.astart extConstructFail).2.1.astop).2.2 = [] :=
  ⟨rfl, rfl, rfl, rfl⟩

/-- C10 (amended): `start()` is not atomic on failure — the running flag
is set before the runtime is constructed and spawned, so if either
external step raises, the engine is left Running; a subsequent `start()`
fails with InvalidState, and a subsequent `stop()` passes the running
check (it never fails with InvalidState).  If the failure was in `spawn`,
the handler exists and `stop()` succeeds, invoking shutdown; if
construction itself raised on an engine that never had a handler,
`stop()` fails with AttributeError and invokes no shutdown. -/
theorem C10_amended_start_not_atomic (e : AsyncEmbeddingEngine)
    (ext : ExternalBehavior) (hrun : e.running = false)
    (hfail : ext.construct_fails = true
      ∨ (ext.construct_fails = false ∧ ext.spawn_fails = true)) :
    (e.astart ext).1 = .error .externalFailure
    ∧ (e.astart ext).2.1.running = true
    ∧ (∀ ext2, ((e.astart ext).2.1.astart ext2).1
        = .error .invalidStateDoubleSpawn)
    ∧ ((e.astart ext).2.1.astop).1 ≠ .error .invalidStateNotRunning
    ∧ (ext.construct_fails = false →
        ((e.astart ext).2.1.astop).1 = .ok ()
        ∧ ((e.astart ext).2.1.astop).2.2 = [.shutdown])
    ∧ (ext.construct_fails = true → e._batch_handler = none →
        ((e.astart ext).2.1.astop).1 = .error .attributeNoBatchHandler
        ∧ ((e.astart ext).2.1.astop).2.2 = []) := by
  rcases hfail with hc | ⟨hc, hs⟩
  · refine ⟨by simp [astart, hrun, hc], by simp [astart, hrun, hc],
      ?_, ?_, ?_, ?_⟩
    · intro ext2; simp [astart, hrun, hc]
    · cases hb : e._batch_handler <;> simp [astart, astop, hrun, hc, hb]
    · intro h; rw [h] at hc; exact absurd hc (by simp)
    · intro _ hb; simp [astart, astop, hrun, hc, hb]
  · refine ⟨by simp [astart, hrun, hc, hs], by simp [astart, hrun, hc, hs],
      ?_, ?_, ?_, ?_⟩
    · intro ext2; simp [astart, hrun, hc, hs]
    · simp [astart, astop, hrun, hc, hs]
    · intro _; simp [astart, astop, hrun, hc, hs]
    · intro h; rw [h] at hc; exact absurd hc (by simp)

/-- C10 (amended) at the concrete engine `c0` with a failing `spawn`: the
engine is left Running, a second start fails with InvalidState, and stop
succeeds with a shutdown. -/
theorem C10_amended_start_not_atomic_witness :
    (c0.astart extSpawnFail).1 = .error .externalFailure
    ∧ (c0.astart extSpawnFail).2.1.running = true
    ∧ ((c0.astart extSpawnFail).2.1.astart ext0).1
      = .error .invalidStateDoubleSpawn
    ∧ ((c0.astart extSpawnFail).2.1.astop).1 = .ok ()
    ∧ ((c0.astart extSpawnFail).2.1.astop).2.2 = [.shutdown] :=
  ⟨(C10_amended_start_not_atomic c0 extSpawnFail (by decide)
      (.inr ⟨rfl, rfl⟩)).1,
   (C10_amended_start_not_atomic c0 extSpawnFail (by decide)
      (.inr ⟨rfl, rfl⟩)).2.1,
   (C10_amended_start_not_atomic c0 extSpawnFail (by decide)
      (.inr ⟨rfl, rfl⟩)).2.2.1 ext0,
   ((C10_amended_start_not_atomic c0 extSpawnFail (by decide)
      (.inr ⟨rfl, rfl⟩)).2.2.2.2.1 rfl).1,
   ((C10_amended_start_not_atomic c0 extSpawnFail (by decide)
      (.inr ⟨rfl, rfl⟩)).2.2.2.2.1 rfl).2⟩

end Infinity
